import Mathlib

set_option maxRecDepth 100000

/-! Verification of the sitemap library (src/index.ts): the `Sitemap` route
collection and the `SiteMapGenerator` XML serializer, embedded shallowly.
JS numbers that the claims exercise are integral, so numeric fields are `Int`
with JS falsiness modelled as equality with `0`; JS string-keyed objects are
association lists in key-insertion order. -/

/-- Model of `ltrim(s, "/")` from the reinforcements helper library, as used by
`parsePath`: removes every leading slash character from the string. -/
def ltrimSlash (s : String) : String :=
  ⟨s.data.dropWhile (· == '/')⟩

/-- The `lastModified` field of a route: either a preformatted string or a JS
`Date` object. A `Date` is carried as its ISO-8601 rendering because the
serializer only observes `toISOString()`; a `Date` is always truthy while a
string is truthy only when nonempty. -/
inductive LastModified where
  | str (s : String)
  | date (iso : String)
deriving Repr, DecidableEq

/-- The `SitemapPath` record type of src/index.ts. `hreflang` is an ordered
string-keyed object, modelled as an association list in key-insertion order. -/
structure SitemapPath where
  path : String
  lastModified : Option LastModified := none
  changeFrequency : Option String := none
  priority : Option Int := none
  hreflang : Option (List (String × String)) := none
deriving Repr, DecidableEq

/-- Argument of `Sitemap.add` and `Sitemap.parsePath`: either a bare path
string or a structured record (`SitemapPath | string`). -/
inductive RawPath where
  | str (s : String)
  | record (p : SitemapPath)
deriving Repr, DecidableEq

/-- The `path = { path }` coercion at the top of `parsePath` (line 108-110). -/
def RawPath.toRecord : RawPath → SitemapPath
  | .str s => { path := s }
  | .record p => p

/-- JS object property assignment `obj[k] = v` on an insertion-ordered object:
updates the entry in place if the key already exists, otherwise appends. -/
def objInsert (m : List (String × String)) (k v : String) : List (String × String) :=
  if m.any (fun e => e.1 == k) then
    m.map (fun e => if e.1 == k then (k, v) else e)
  else m ++ [(k, v)]

/-- The hreflang-building loop of `parsePath` (lines 119-130): starting from the
empty object, assign one entry per configured locale code, in order. -/
def buildHreflang (baseUrl : String) (localeCodes : List String) (relPath : String) :
    List (String × String) :=
  localeCodes.foldl
    (fun m localeCode =>
      objInsert m localeCode (baseUrl ++ "/" ++ localeCode ++ "/" ++ ltrimSlash relPath))
    []

/-- `Sitemap.parsePath` (lines 107-135) as a function of the base URL and locale
codes in force at call time. The `!internalRoute.priority` truthiness test is
`priority` being absent or `0`; the `this.localeCodes.length` test is the list
being nonempty; `internalRoute.path` is still the relative path when the
hreflang values are built (the absolute path is assigned afterwards, line 132). -/
def parsePathF (baseUrl : String) (localeCodes : List String) (raw : RawPath) : SitemapPath :=
  let internalRoute := raw.toRecord
  let internalRoute :=
    if internalRoute.priority.getD 0 = 0 then { internalRoute with priority := some 1 }
    else internalRoute
  let internalRoute :=
    if localeCodes.isEmpty then internalRoute
    else { internalRoute with
            hreflang := some (buildHreflang baseUrl localeCodes internalRoute.path) }
  { internalRoute with path := baseUrl ++ "/" ++ ltrimSlash internalRoute.path }

/-- The `Sitemap` class state: base URL, locale codes, the accumulated routes,
and the (unconsumed) split configuration flags. -/
structure Sitemap where
  baseUrl : String
  localeCodes : List String := []
  paths : List SitemapPath := []
  _split : Bool := false
  _maxURLsPerSitemap : Int := 50000
  _splitByLanguages : Bool := true
deriving Repr, DecidableEq

/-- `setLocales` (lines 64-68): replaces the locale-code list. -/
def Sitemap.setLocales (s : Sitemap) (localeCodes : List String) : Sitemap :=
  { s with localeCodes := localeCodes }

/-- `parsePath` as the method (reads `this.baseUrl` and `this.localeCodes`). -/
def Sitemap.parsePath (s : Sitemap) (raw : RawPath) : SitemapPath :=
  parsePathF s.baseUrl s.localeCodes raw

/-- `add` (lines 100-102): push the parsed route onto `this.paths`. -/
def Sitemap.add (s : Sitemap) (raw : RawPath) : Sitemap :=
  { s with paths := s.paths ++ [s.parsePath raw] }

/-- The serializer class: its only state is the accumulated url list. -/
structure SiteMapGenerator where
  urls : List SitemapPath := []
deriving Repr, DecidableEq

/-- `SiteMapGenerator.add` (lines 216-221): push each given url. -/
def SiteMapGenerator.add (g : SiteMapGenerator) (urls : List SitemapPath) : SiteMapGenerator :=
  { g with urls := g.urls ++ urls }

/-- The XML header plus the opening `<urlset>` tag (lines 227-231). -/
def urlsetOpen : String :=
  "<?xml version=\"1.0\" encoding=\"UTF-8\"?>\n<urlset xmlns=\"http://www.sitemaps.org/schemas/sitemap/0.9\" xmlns:xhtml=\"http://www.w3.org/1999/xhtml\">\n"

/-- The `<lastmod>` line of a url block (lines 241-247): emitted only when
`lastModified` is truthy; a `Date` renders via `toISOString()`. -/
def lastmodLine (r : SitemapPath) : String :=
  match r.lastModified with
  | none => ""
  | some (.str s) => if s = "" then "" else "    <lastmod>" ++ s ++ "</lastmod>\n"
  | some (.date iso) => "    <lastmod>" ++ iso ++ "</lastmod>\n"

/-- The `<changefreq>` line (lines 249-251): emitted only when truthy. -/
def changefreqLine (r : SitemapPath) : String :=
  match r.changeFrequency with
  | none => ""
  | some s => if s = "" then "" else "    <changefreq>" ++ s ++ "</changefreq>\n"

/-- The `<priority>` line (lines 253-255): emitted only when `priority` is
truthy, i.e. present and nonzero. -/
def priorityLine (r : SitemapPath) : String :=
  match r.priority with
  | none => ""
  | some p => if p = 0 then "" else "    <priority>" ++ toString p ++ "</priority>\n"

/-- The `xhtml:link` alternate lines (lines 257-261): one per hreflang entry, in
object insertion order; an hreflang object is truthy even when empty. -/
def hreflangLines (r : SitemapPath) : String :=
  match r.hreflang with
  | none => ""
  | some entries =>
      entries.foldl
        (fun acc e =>
          acc ++ "    <xhtml:link rel=\"alternate\" hreflang=\"" ++ e.1
            ++ "\" href=\"" ++ e.2 ++ "\" />\n")
        ""

/-- One `<url>` block of `generate` (lines 237-264). -/
def urlBlock (r : SitemapPath) : String :=
  "  <url>\n" ++ "    <loc>" ++ r.path ++ "</loc>\n"
    ++ lastmodLine r ++ changefreqLine r ++ priorityLine r ++ hreflangLines r
    ++ "  </url>\n"

/-- JS `array.slice(0, e)`: a negative end counts from the end of the array,
clamped at zero. -/
def jsSliceTo (e : Int) (xs : List SitemapPath) : List SitemapPath :=
  xs.take (if e < 0 then ((xs.length : Int) + e).toNat else e.toNat)

/-- The route selection `limit ? clone(urls).slice(0, limit) : clone(urls)`
(lines 233-235): an absent limit, or the falsy limit `0`, selects everything. -/
def routesFor (urls : List SitemapPath) (limit : Option Int) : List SitemapPath :=
  match limit with
  | none => urls
  | some l => if l = 0 then urls else jsSliceTo l urls

/-- `SiteMapGenerator.generate` (lines 226-269): the url blocks are appended one
by one onto the header, then the closing tag is appended. -/
def SiteMapGenerator.generate (g : SiteMapGenerator) (limit : Option Int) : String :=
  (routesFor g.urls limit).foldl (fun xml route => xml ++ urlBlock route) urlsetOpen
    ++ "</urlset>\n"

/-- The XML header plus the opening `<sitemapindex>` tag (lines 275-278). -/
def sitemapindexOpen : String :=
  "<?xml version=\"1.0\" encoding=\"UTF-8\"?>\n<sitemapindex xmlns=\"http://www.sitemaps.org/schemas/sitemap/0.9\">\n"

/-- One `<sitemap>` block of `generateSitemapsList` (lines 282-286): only the
route's path is consulted. -/
def sitemapBlock (r : SitemapPath) : String :=
  "  <sitemap>\n" ++ "    <loc>" ++ r.path ++ "</loc>\n" ++ "  </sitemap>\n"

/-- `SiteMapGenerator.generateSitemapsList` (lines 274-291). -/
def SiteMapGenerator.generateSitemapsList (g : SiteMapGenerator) : String :=
  g.urls.foldl (fun xml route => xml ++ sitemapBlock route) sitemapindexOpen
    ++ "</sitemapindex>\n"

/-- `Sitemap.generate` (lines 166-168): a transient serializer is loaded with
all current routes and rendered. -/
def Sitemap.generate (s : Sitemap) (limit : Option Int) : String :=
  ((SiteMapGenerator.mk []).add s.paths).generate limit

/-- `Sitemap.generateSitemapsList` (lines 173-175). -/
def Sitemap.generateSitemapsList (s : Sitemap) : String :=
  ((SiteMapGenerator.mk []).add s.paths).generateSitemapsList

/-- `toXML` (lines 202-204): alias for `generate()` with no limit. -/
def Sitemap.toXML (s : Sitemap) : String :=
  s.generate none

/-- `saveTo` (lines 140-147): the only call site of the external `putFile`
collaborator in the whole source. The first component is the trace of putFile
invocations (destination, content) performed by the call. -/
def Sitemap.saveTo (s : Sitemap) (path : String) : List (String × String) × Sitemap :=
  ([(path, s.generate none)], s)

/-- `generateMultiLanguage` (lines 180-197), threaded as a state transformer on
`this`. The first component of the result collects the `putFile` invocations
performed during the call; the body calls `sitemap.toXML()` on each child and
discards the returned string without ever calling `putFile` or `saveTo`, so no
write is appended to the trace anywhere in the loop. The method body never
assigns to `this`, so the final state is the receiver unchanged. -/
def Sitemap.generateMultiLanguage (s : Sitemap) : (List (String × String) × String) × Sitemap :=
  let start : List (String × String) × Sitemap := ([], { baseUrl := s.baseUrl })
  let step := fun (acc : List (String × String) × Sitemap) (localeCode : String) =>
    let child : Sitemap := { baseUrl := s.baseUrl ++ "/" ++ localeCode }
    let child := s.paths.foldl (fun c route => c.add (RawPath.record route)) child
    let _discardedXml := child.toXML
    (acc.1, acc.2.add (RawPath.str ("/sitemap-" ++ localeCode ++ ".xml")))
  let result := s.localeCodes.foldl step start
  ((result.1, result.2.generateSitemapsList), s)

/-- Compositional form of a serialized document body: one block per route,
concatenated in order. -/
def renderBlocks (f : SitemapPath → String) : List SitemapPath → String
  | [] => ""
  | r :: rest => f r ++ renderBlocks f rest

/-- A collection with the README's base URL and no locale codes. -/
def exampleBase : Sitemap :=
  { baseUrl := "https://example.com" }

/-- One route added to the base example. -/
def sampleOne : Sitemap :=
  exampleBase.add (RawPath.str "/a")

/-- Two routes added to the base example. -/
def sampleTwo : Sitemap :=
  (exampleBase.add (RawPath.str "/x")).add (RawPath.str "/y")

/-- The README's two-locale collection. -/
def sampleLocales : Sitemap :=
  { baseUrl := "https://example.com", localeCodes := ["en", "ar"] }

/-- The spec's multi-language example: locales en and ar, paths / and /about. -/
def sampleML : Sitemap :=
  (sampleLocales.add (RawPath.str "/")).add (RawPath.str "/about")

theorem parsePathF_spec (B : String) (L : List String) (raw : RawPath) :
    (parsePathF B L raw).path = B ++ "/" ++ ltrimSlash raw.toRecord.path
    ∧ (parsePathF B L raw).lastModified = raw.toRecord.lastModified
    ∧ (parsePathF B L raw).changeFrequency = raw.toRecord.changeFrequency
    ∧ (parsePathF B L raw).priority
        = (if raw.toRecord.priority.getD 0 = 0 then some 1 else raw.toRecord.priority)
    ∧ (parsePathF B L raw).hreflang
        = (if L.isEmpty then raw.toRecord.hreflang
           else some (buildHreflang B L raw.toRecord.path)) := by
  unfold parsePathF
  by_cases h1 : raw.toRecord.priority.getD 0 = 0 <;>
    by_cases h2 : L.isEmpty <;>
      simp [h1, h2]

theorem objInsert_fresh (m : List (String × String)) (k v : String)
    (h : ∀ e ∈ m, e.1 ≠ k) : objInsert m k v = m ++ [(k, v)] := by
  have hany : (m.any (fun e => e.1 == k)) = false := by
    rw [List.any_eq_false]
    intro e he
    simpa using h e he
  simp [objInsert, hany]

theorem foldl_objInsert_fresh (f : String → String) :
    ∀ (L : List String) (acc : List (String × String)),
      L.Nodup → (∀ e ∈ acc, e.1 ∉ L) →
      L.foldl (fun m c => objInsert m c (f c)) acc = acc ++ L.map (fun c => (c, f c))
  | [], acc, _, _ => by simp
  | c :: rest, acc, hnd, hfresh => by
    have hfr : ∀ e ∈ acc, e.1 ≠ c := by
      intro e he
      have hm := hfresh e he
      simp only [List.mem_cons, not_or] at hm
      exact hm.1
    rw [List.foldl_cons, objInsert_fresh acc c (f c) hfr]
    have hnd' : rest.Nodup := (List.nodup_cons.mp hnd).2
    have hcnot : c ∉ rest := (List.nodup_cons.mp hnd).1
    have hfresh' : ∀ e ∈ acc ++ [(c, f c)], e.1 ∉ rest := by
      intro e he
      rcases List.mem_append.mp he with hmem | hmem
      · have hm := hfresh e hmem
        simp only [List.mem_cons, not_or] at hm
        exact hm.2
      · simp only [List.mem_singleton] at hmem
        subst hmem
        simpa using hcnot
    rw [foldl_objInsert_fresh f rest (acc ++ [(c, f c)]) hnd' hfresh']
    simp

theorem buildHreflang_eq (B relPath : String) (L : List String) (hnd : L.Nodup) :
    buildHreflang B L relPath
      = L.map (fun c => (c, B ++ "/" ++ c ++ "/" ++ ltrimSlash relPath)) := by
  have h := foldl_objInsert_fresh
    (fun c => B ++ "/" ++ c ++ "/" ++ ltrimSlash relPath) L [] hnd (by simp)
  simpa [buildHreflang] using h

theorem foldl_append_renderBlocks (f : SitemapPath → String) :
    ∀ (L : List SitemapPath) (init : String),
      L.foldl (fun xml route => xml ++ f route) init = init ++ renderBlocks f L
  | [], init => by simp [renderBlocks, String.append_empty]
  | r :: rest, init => by
    rw [List.foldl_cons, foldl_append_renderBlocks f rest (init ++ f r)]
    simp [renderBlocks, String.append_assoc]

/-- C1: for every configured base URL and raw path (bare string or structured
record, with or without leading slashes), `add` appends one route whose stored
path is the base URL, a slash, and the input path with all leading slashes
stripped; `lastModified` and `changeFrequency` are copied through unchanged. -/
theorem C1_add_normalizes_path (s : Sitemap) (raw : RawPath) :
    (s.add raw).paths = s.paths ++ [s.parsePath raw]
    ∧ (s.parsePath raw).path = s.baseUrl ++ "/" ++ ltrimSlash raw.toRecord.path
    ∧ (s.parsePath raw).lastModified = raw.toRecord.lastModified
    ∧ (s.parsePath raw).changeFrequency = raw.toRecord.changeFrequency := by
  have h := parsePathF_spec s.baseUrl s.localeCodes raw
  exact ⟨rfl, h.1, h.2.1, h.2.2.1⟩

/-- C2 counterexample: with the duplicate locale list ["en", "en"], the stored
hreflang object holds a single entry, not one entry per code of the list (JS
object assignment collapses the repeated key), so the mapping has 1 entry where
the claim demands 2. -/
theorem C2_counterexample :
    (({ baseUrl := "https://example.com", localeCodes := ["en", "en"] } : Sitemap).parsePath
        (RawPath.str "/a")).hreflang
      = some [("en", "https://example.com/en/a")]
    ∧ (["en", "en"] : List String).length = 2 := by
  exact ⟨rfl, rfl⟩

/-- C2 amended: for a duplicate-free locale list, a nonempty list yields an
hreflang mapping with exactly one entry per code, in the list's order, each
value being baseUrl/code/trimmed-path, overwriting any input hreflang; an empty
list leaves the input's hreflang as given. (Duplicate codes are collapsed to
one entry per distinct code by JS object-key semantics.) -/
theorem C2_hreflang_amended (s : Sitemap) (raw : RawPath) (hnd : s.localeCodes.Nodup) :
    (s.localeCodes ≠ [] →
      (s.parsePath raw).hreflang
        = some (s.localeCodes.map
            (fun c => (c, s.baseUrl ++ "/" ++ c ++ "/" ++ ltrimSlash raw.toRecord.path))))
    ∧ (s.localeCodes = [] → (s.parsePath raw).hreflang = raw.toRecord.hreflang) := by
  have h5 := (parsePathF_spec s.baseUrl s.localeCodes raw).2.2.2.2
  constructor
  · intro hne
    have hL : s.localeCodes.isEmpty = false := by
      cases hc : s.localeCodes with
      | nil => exact absurd hc hne
      | cons a t => rfl
    simp only [Sitemap.parsePath]
    rw [h5, if_neg (by simp [hL]), buildHreflang_eq _ _ _ hnd]
  · intro he
    simp only [Sitemap.parsePath]
    rw [h5, if_pos (by simp [he])]

/-- C2 witness: the amended theorem evaluated on the README's two-locale
collection and the path /about. -/
theorem C2_hreflang_amended_witness :
    (sampleLocales.parsePath (RawPath.str "/about")).hreflang
      = some [("en", "https://example.com/en/about"), ("ar", "https://example.com/ar/about")] :=
  ((C2_hreflang_amended sampleLocales (RawPath.str "/about") (by decide)).1
      (by decide)).trans (by rfl)

/-- C3 counterexample: with one stored route and the provided limit 0 (an
integer smaller than the count 1), `generate` returns the full one-block
document instead of a document with zero url blocks, because the JS-falsy
limit 0 skips truncation entirely. -/
theorem C3_counterexample :
    sampleOne.generate (some 0)
      = urlsetOpen
        ++ "  <url>\n    <loc>https://example.com/a</loc>\n    <priority>1</priority>\n  </url>\n"
        ++ "</urlset>\n"
    ∧ sampleOne.generate (some 0) ≠ urlsetOpen ++ "</urlset>\n"
    ∧ sampleOne.paths.length = 1 := by
  refine ⟨rfl, ?_, rfl⟩
  decide

/-- C3 amended: for a provided positive limit, `generate` returns the document
made of the blocks of the first min(limit, n) routes in insertion order — so a
positive limit below the count gives exactly that many blocks — and `generate`
with no limit returns all blocks; the collection itself is never touched (the
operation is a pure function of it). A provided limit of 0 is falsy and selects
everything; a negative limit slices from the end of the list. -/
theorem C3_generate_limit_amended (s : Sitemap) (l : Int) (hl : 0 < l) :
    s.generate (some l)
        = urlsetOpen ++ renderBlocks urlBlock (s.paths.take l.toNat) ++ "</urlset>\n"
    ∧ (s.paths.take l.toNat).length = min l.toNat s.paths.length
    ∧ s.generate none = urlsetOpen ++ renderBlocks urlBlock s.paths ++ "</urlset>\n" := by
  refine ⟨?_, List.length_take _ _, ?_⟩
  · have hne : l ≠ 0 := ne_of_gt hl
    have hnneg : ¬ l < 0 := not_lt.mpr hl.le
    simp [Sitemap.generate, SiteMapGenerator.generate, SiteMapGenerator.add,
      routesFor, jsSliceTo, hne, hnneg, foldl_append_renderBlocks]
  · simp [Sitemap.generate, SiteMapGenerator.generate, SiteMapGenerator.add,
      routesFor, foldl_append_renderBlocks]

/-- C3 witness: the amended theorem at two routes and limit 1 yields exactly the
first route's block. -/
theorem C3_generate_limit_witness :
    sampleTwo.generate (some 1)
      = urlsetOpen
        ++ "  <url>\n    <loc>https://example.com/x</loc>\n    <priority>1</priority>\n  </url>\n"
        ++ "</urlset>\n" :=
  ((C3_generate_limit_amended sampleTwo 1 (by decide)).1).trans (by rfl)

/-- C4 counterexample: a route added with priority explicitly 0 is normalized to
priority 1 by `parsePath`, so the generated block contains a priority element
rather than omitting it. -/
theorem C4_counterexample :
    (exampleBase.add (RawPath.record { path := "/a", priority := some 0 })).generate none
      = urlsetOpen
        ++ "  <url>\n    <loc>https://example.com/a</loc>\n    <priority>1</priority>\n  </url>\n"
        ++ "</urlset>\n"
    ∧ (exampleBase.add (RawPath.record { path := "/a", priority := some 0 })).generate none
      ≠ urlsetOpen
        ++ "  <url>\n    <loc>https://example.com/a</loc>\n  </url>\n"
        ++ "</urlset>\n" := by
  refine ⟨rfl, ?_⟩
  decide

/-- C4 amended: a route added with priority 1, priority absent, or priority
explicitly 0 ends up stored with priority 1 and its block carries the line
`<priority>1</priority>`; the priority element is omitted only when a route
with a falsy priority reaches the serializer directly, bypassing `add`. -/
theorem C4_priority_amended (s : Sitemap) (p : SitemapPath)
    (h : p.priority = none ∨ p.priority = some 0 ∨ p.priority = some 1) :
    priorityLine (s.parsePath (RawPath.record p)) = "    <priority>1</priority>\n"
    ∧ priorityLine { p with priority := some 0 } = "" := by
  have h4 := (parsePathF_spec s.baseUrl s.localeCodes (RawPath.record p)).2.2.2.1
  have hpr : (s.parsePath (RawPath.record p)).priority = some 1 := by
    simp only [Sitemap.parsePath]
    rw [h4]
    rcases h with h | h | h <;> simp [RawPath.toRecord, h]
  constructor
  · simp only [priorityLine, hpr]
    rw [if_neg one_ne_zero]
    rfl
  · simp [priorityLine]

/-- C4 witness: the amended theorem at a record with no priority given. -/
theorem C4_priority_amended_witness :
    priorityLine (exampleBase.parsePath (RawPath.record { path := "/a" }))
      = "    <priority>1</priority>\n" :=
  (C4_priority_amended exampleBase { path := "/a" } (Or.inl rfl)).1

/-- C5: snapshot semantics of `setLocales` — after add(P1), setLocales(L2),
add(P2), the stored list extends the original by exactly the route for P1
parsed with the locale codes in force at its own add-time and the route for P2
parsed with L2; no stored route is re-evaluated. -/
theorem C5_setLocales_snapshot (s : Sitemap) (p1 : RawPath) (L2 : List String) (p2 : RawPath) :
    (((s.add p1).setLocales L2).add p2).paths
      = s.paths ++ [parsePathF s.baseUrl s.localeCodes p1, parsePathF s.baseUrl L2 p2]
    ∧ (((s.add p1).setLocales L2).add p2).localeCodes = L2 := by
  constructor
  · simp [Sitemap.add, Sitemap.setLocales, Sitemap.parsePath]
  · rfl

/-- C6: evaluation at the spec's example (base https://example.com, locales
en and ar, paths / and /about): `generateMultiLanguage` performs zero putFile
invocations — the source computes each child's XML with `toXML()` and discards
the string, never calling `putFile` — while still returning a sitemapindex
whose two entries reference the never-written /sitemap-en.xml and
/sitemap-ar.xml. -/
theorem C6_no_file_writes :
    (sampleML.generateMultiLanguage).1.1 = []
    ∧ (sampleML.generateMultiLanguage).1.2
      = sitemapindexOpen
        ++ "  <sitemap>\n    <loc>https://example.com/sitemap-en.xml</loc>\n  </sitemap>\n"
        ++ "  <sitemap>\n    <loc>https://example.com/sitemap-ar.xml</loc>\n  </sitemap>\n"
        ++ "</sitemapindex>\n" := by
  exact ⟨rfl, rfl⟩

/-- C7: `generateSitemapsList` renders exactly one sitemap block per held route,
in insertion order, each block consisting of that route's path inside a loc
element and consulting no other field; with no routes the document body has
zero blocks. -/
theorem C7_sitemaps_list (s : Sitemap) :
    s.generateSitemapsList
      = sitemapindexOpen ++ renderBlocks sitemapBlock s.paths ++ "</sitemapindex>\n" := by
  simp [Sitemap.generateSitemapsList, SiteMapGenerator.generateSitemapsList,
    SiteMapGenerator.add, foldl_append_renderBlocks]

/-- C8: both render operations are functions of the held route list alone —
collections holding equal route lists render to identical XML strings for any
limit, and repeated calls agree; neither operation changes the list. -/
theorem C8_render_pure (s1 s2 : Sitemap) (limit : Option Int) (h : s1.paths = s2.paths) :
    s1.generate limit = s2.generate limit
    ∧ s1.generateSitemapsList = s2.generateSitemapsList := by
  constructor <;> simp [Sitemap.generate, Sitemap.generateSitemapsList, h]

/-- C8 witness: the purity theorem applied to one concrete collection. -/
theorem C8_render_pure_witness :
    sampleOne.generate none = sampleOne.generate none
    ∧ sampleOne.generateSitemapsList = sampleOne.generateSitemapsList :=
  C8_render_pure sampleOne sampleOne none rfl

/-- C9: every route stored through `add` carries a defined nonzero priority —
an absent or falsy input priority, including an explicit 0, is replaced by 1 at
add-time — and therefore the priority line of its rendered url block is always
present. -/
theorem C9_priority_invariant (s : Sitemap) (raw : RawPath) :
    (s.add raw).paths = s.paths ++ [s.parsePath raw]
    ∧ ∃ p : Int, (s.parsePath raw).priority = some p ∧ p ≠ 0
        ∧ priorityLine (s.parsePath raw) = "    <priority>" ++ toString p ++ "</priority>\n" := by
  refine ⟨rfl, ?_⟩
  have h4 := (parsePathF_spec s.baseUrl s.localeCodes raw).2.2.2.1
  simp only [Sitemap.parsePath] at *
  by_cases hc : raw.toRecord.priority.getD 0 = 0
  · refine ⟨1, ?_, one_ne_zero, ?_⟩
    · rw [h4, if_pos hc]
    · simp only [priorityLine, h4, if_pos hc]
      rw [if_neg one_ne_zero]
  · obtain ⟨q, hq⟩ : ∃ q, raw.toRecord.priority = some q := by
      cases hpo : raw.toRecord.priority with
      | none => rw [hpo] at hc; simp at hc
      | some q => exact ⟨q, rfl⟩
    have hq0 : q ≠ 0 := by
      intro h0
      exact hc (by simp [hq, h0])
    have hpr : (parsePathF s.baseUrl s.localeCodes raw).priority = some q := by
      rw [h4, if_neg hc, hq]
    refine ⟨q, hpr, hq0, ?_⟩
    simp only [priorityLine, hpr]
    rw [if_neg hq0]

/-- C10: `generateMultiLanguage` leaves the receiving collection unchanged —
base URL, locale codes and the full stored route sequence are the same after
the call; all work happens in freshly created child collections and a fresh
index collection. -/
theorem C10_generateMultiLanguage_frame (s : Sitemap) :
    (s.generateMultiLanguage).2 = s
    ∧ (s.generateMultiLanguage).2.baseUrl = s.baseUrl
    ∧ (s.generateMultiLanguage).2.localeCodes = s.localeCodes
    ∧ (s.generateMultiLanguage).2.paths = s.paths := by
  exact ⟨rfl, rfl, rfl, rfl⟩
